import Mathlib

/-!
Verification development for the insider-assessment messaging service.

The Go sources embedded here:
* `internal/scheduler/scheduler.go` — the control loop owning the scheduling
  state (`running`, `inBatch`, `pendingStop`) plus the synchronous
  `Start`/`Stop`/`IsRunning` command surface with its `controlTimeout`;
* `internal/handler/default.go` (package `service`) — `ProcessBatch`
  (fetch, worker-count computation, stride worker pool) and `processMessage`
  (transport send, status persistence, best-effort cache write);
* `internal/domain/message` — `Message`, `MarkSent`, `MarkFailed`;
* the cache key helper (`Prefix.Key`, prefix `sent_messages`);
* `internal/config/config.go` — `getInt`/`getDuration` defaulting, together
  with the constructor-level defaults of `NewSchedulerService` and
  `NewMessageService`.

Durations are Go `time.Duration` values, i.e. integer nanosecond counts;
times on the control path are absolute instants in nanoseconds (`Nat`).
-/

namespace InsiderSpec

/-! ### Scheduler control loop (scheduler.go, lines 151-236)

The loop goroutine is the single owner of `running`, `inBatch` and
`pendingStop`.  It repeatedly selects between a control message and a ticker
tick; the tick arm runs `ProcessBatch` synchronously inside the loop's own
turn, so control messages are only ever received while the loop sits at its
`select`.  We model the loop as a state machine: `phase = atSelect` is the
loop blocked at its `select`; `phase = inTickArm` is the loop inside the tick
arm with `ProcessBatch` in flight.  Events a command sender or the ticker can
produce are consumed only in the phase where the Go loop would consume them;
an event hitting the other phase leaves the state unchanged (an unbuffered
command send simply stays blocked at the sender, and the ticker drops ticks
nobody receives). -/

/-- Position of the loop goroutine: blocked at the select statement
(line 165), or inside the tick arm executing ProcessBatch (lines 209-225). -/
inductive LoopPhase
  | atSelect
  | inTickArm
deriving DecidableEq, Repr

/-- State owned by the loop goroutine (scheduler.go lines 157-162), plus the
phase of the loop and an instrumentation counter of concurrently active
ProcessBatch invocations. `pendingStop` holds the identifier of the Stop
caller whose acknowledgment slot the loop has put aside, if any. -/
structure LoopState where
  running : Bool
  inBatch : Bool
  pendingStop : Option Nat
  phase : LoopPhase
  activeBatches : Nat
deriving DecidableEq, Repr

/-- Events driving the loop: the three control commands (opStart, opStop with
the caller's ack slot identifier, opStatus), a ticker tick, and the return of
the in-flight ProcessBatch call. -/
inductive LoopEvent
  | cmdStart
  | cmdStop (ack : Nat)
  | cmdStatus
  | tick
  | batchDone
deriving DecidableEq, Repr

/-- One reaction of the loop (scheduler.go lines 164-235).  Commands and
ticks are consumed only at the select; `batchDone` only inside the tick arm.
The opStop arm mirrors lines 176-196: an idle Stop is acknowledged at once,
otherwise `running` is cleared and the ack slot is put aside exactly when
`inBatch` is true.  The tick arm mirrors lines 202-233: a tick is dropped
when not running or already in a batch, otherwise the loop enters the tick
arm with `inBatch := true`; on `batchDone` it clears `inBatch`, fulfills and
clears a held `pendingStop`, and returns to the select. -/
def loopStep (s : LoopState) (e : LoopEvent) : LoopState :=
  match s.phase, e with
  | .atSelect, .cmdStart => { s with running := true }
  | .atSelect, .cmdStop ack =>
      if !s.running && !s.inBatch then
        s
      else
        let s1 := { s with running := false }
        if s1.inBatch then { s1 with pendingStop := some ack } else s1
  | .atSelect, .cmdStatus => s
  | .atSelect, .tick =>
      if !s.running || s.inBatch then
        s
      else
        { s with inBatch := true, phase := .inTickArm,
                 activeBatches := s.activeBatches + 1 }
  | .atSelect, .batchDone => s
  | .inTickArm, .batchDone =>
      let s1 := { s with inBatch := false, phase := .atSelect,
                         activeBatches := s.activeBatches - 1 }
      match s1.pendingStop with
      | some _ => { s1 with pendingStop := none }
      | none => s1
  | .inTickArm, .cmdStart => s
  | .inTickArm, .cmdStop _ => s
  | .inTickArm, .cmdStatus => s
  | .inTickArm, .tick => s

/-- Initial loop state (scheduler.go lines 157-162): not running, not in a
batch, no held stop acknowledgment, loop at its select. -/
def initLoop : LoopState :=
  { running := false, inBatch := false, pendingStop := none,
    phase := .atSelect, activeBatches := 0 }

/-- State reached by the loop after consuming a sequence of events from the
initial state.  Every reachable state of the loop is `runLoop es` for some
event list `es`. -/
def runLoop (es : List LoopEvent) : LoopState :=
  es.foldl loopStep initLoop

/-! ### Timed model of the control round-trips (scheduler.go, lines 90-147)

`Start`, `Stop` and `IsRunning` talk to the loop over the unbuffered `ctrl`
channel and an unbuffered per-command `resp` channel.  We model absolute
times in nanoseconds.  A caller arriving at `t0` can complete an unbuffered
rendezvous with the loop only once the loop is back at its select, at time
`free` (the completion time of an in-flight batch; `free ≤ t0` when the loop
is already waiting).  Servicing a command and replying on `resp` takes no
model time: the loop's command arms only flip booleans and send the reply,
and the caller is already blocked on `resp`. -/

/-- Completion time of an unbuffered-channel rendezvous between a party
arriving at time `t0` and a party available from time `free`. -/
def rendezvous (t0 free : Nat) : Nat := max t0 free

/-- Outcome of a Go select racing an unbuffered rendezvous (available from
`free`) against `time.After dl` started at `t0`: the rendezvous wins iff it
completes strictly before the timer fires. -/
def sendWithTimeout (t0 free dl : Nat) : Option Nat :=
  if rendezvous t0 free < t0 + dl then some (rendezvous t0 free) else none

/-- controlTimeout (scheduler.go line 36): 2 seconds, in nanoseconds. -/
def controlTimeout : Nat := 2 * 1000000000

/-- Return of a control call: successful acknowledgment at a time, or the
control-timeout error at a time. -/
inductive ControlReturn
  | ok (t : Nat)
  | unresponsive (t : Nat)
deriving DecidableEq, Repr

/-- Time at which a control call returned to its caller. -/
def ControlReturn.time : ControlReturn → Nat
  | .ok t => t
  | .unresponsive t => t

/-- Timed embedding of schedulerService.Stop (scheduler.go lines 119-138),
invoked at `t0` while the loop is next available at time `free`.  First
select (lines 124-129): the send on `ctrl` races `time.After controlTimeout`.
If the send wins at time `t`, the loop services opStop at `t`; the loop is at
its select there, where `inBatch` is false (see `runLoop_pendingStop_none`
and `runLoop_atSelect_not_inBatch`), so the arm replies on `resp`
immediately.  Second select (lines 132-137): the reply rendezvous, available
at once, races a fresh `time.After controlTimeout`. -/
def StopReturn (t0 free : Nat) : ControlReturn :=
  match sendWithTimeout t0 free controlTimeout with
  | none => .unresponsive (t0 + controlTimeout)
  | some t =>
      match sendWithTimeout t t controlTimeout with
      | none => .unresponsive (t + controlTimeout)
      | some t2 => .ok t2

/-- Timed embedding of schedulerService.IsRunning (scheduler.go lines
143-147), invoked at `t0` while the loop is next available at time `free`.
The body is a bare unbuffered send `s.ctrl <- msg` followed by a bare receive
`<-resp`: no select and no timer anywhere, so the call returns exactly when
the rendezvous with the loop completes and the immediate reply is read. -/
def IsRunningReturn (t0 free : Nat) : Nat :=
  rendezvous t0 free

/-! ### Domain message (internal/domain/message) -/

/-- Message status values (StatusPending, StatusSuccess, StatusFailed). -/
inductive Status
  | pending
  | success
  | failed
deriving DecidableEq, Repr

/-- Domain Message entity.  `sentAtSet` stands for the `SentAt *time.Time`
pointer being non-nil (its concrete wall-clock value is not modelled). -/
structure Msg where
  id : String
  recipient : String
  content : String
  status : Status
  messageID : String
  rawResponse : String
  sentAtSet : Bool
deriving DecidableEq, Repr

/-- MarkSent (message.go): records the sent time, sets status SUCCESS and
stores the provider message id and raw response. -/
def MarkSent (m : Msg) (msgID raw : String) : Msg :=
  { m with sentAtSet := true, status := .success,
           messageID := msgID, rawResponse := raw }

/-- MarkFailed (message.go): sets status FAILED and stores the raw provider
response. -/
def MarkFailed (m : Msg) (raw : String) : Msg :=
  { m with status := .failed, rawResponse := raw }

/-! ### Cache key helper (package cache) -/

/-- Key method on a cache prefix: `fmt.Sprintf` of the prefix, a colon and
the id. -/
def prefixKey (p id : String) : String := p ++ ":" ++ id

/-- SentMessages cache prefix constant. -/
def SentMessages : String := "sent_messages"

/-- Nanoseconds in one hour (Go `time.Hour`). -/
def hourNs : Int := 3600 * 1000000000

/-! ### processMessage (default.go, lines 200-239)

The collaborator outcomes a single processMessage execution can observe are
gathered in `ItemEnv`: the transport's `Send` result, the result of the one
`UpdateStatus` call the taken path performs, whether the cache dependency is
nil, and the result of the cache `Set` if attempted.  The execution's
observable effects are returned in `ProcOut`: the final message value, the
function's returned error, the message values passed to `UpdateStatus`, and
the `(key, ttl)` pairs passed to the cache `Set` (the cached value, a
formatted timestamp, is not modelled). -/

/-- Result of smsClient.Send for one item: the assigned external identifier,
the raw provider response, and the error if the send failed. -/
structure SendOutcome where
  externalID : String
  rawResp : String
  err : Option String
deriving DecidableEq, Repr

/-- Collaborator outcomes observed by one processMessage execution. -/
structure ItemEnv where
  send : SendOutcome
  updateErr : Option String
  cacheNil : Bool
  cacheErr : Option String
deriving DecidableEq, Repr

/-- Observable effects of one processMessage execution. -/
structure ProcOut where
  final : Msg
  ret : Option String
  updates : List Msg
  cacheWrites : List (String × Int)
deriving DecidableEq, Repr

/-- processMessage (default.go lines 200-239).  On send failure: MarkFailed
with the raw response, best-effort UpdateStatus (its error only logged), and
the send error is returned.  On send success: MarkSent, then UpdateStatus;
if that fails the function returns its error early — skipping the cache
write.  Otherwise, when the cache dependency is non-nil and the external id
is non-empty, the sent timestamp is cached under
`prefixKey SentMessages externalID` with a 24-hour TTL; a cache error
(`cacheErr`) is logged only and influences nothing. -/
def processMessage (m : Msg) (env : ItemEnv) : ProcOut :=
  match env.send.err with
  | some e =>
      let m2 := MarkFailed m env.send.rawResp
      { final := m2
        ret := some ("send message " ++ m.id ++ ": " ++ e)
        updates := [m2]
        cacheWrites := [] }
  | none =>
      let m2 := MarkSent m env.send.externalID env.send.rawResp
      match env.updateErr with
      | some e =>
          { final := m2
            ret := some ("update status for " ++ m.id ++ ": " ++ e)
            updates := [m2]
            cacheWrites := [] }
      | none =>
          if env.cacheNil = false ∧ env.send.externalID ≠ "" then
            { final := m2
              ret := none
              updates := [m2]
              cacheWrites := [(prefixKey SentMessages env.send.externalID,
                               24 * hourNs)] }
          else
            { final := m2
              ret := none
              updates := [m2]
              cacheWrites := [] }

/-! ### ProcessBatch (default.go, lines 112-187) -/

/-- Worker-count computation of ProcessBatch (default.go lines 134-141),
over Go ints: start from the item count, clamp from above by maxWorkers,
then force at least 1. -/
def workerCount (maxWorkers : Int) (itemCount : Nat) : Int :=
  let wc : Int := itemCount
  let wc := if wc > maxWorkers then maxWorkers else wc
  if wc ≤ 0 then 1 else wc

/-- Index set a single worker walks (default.go lines 157-178): the loop
`for i := start; i < n; i += wc` collected in order.  The code only enters
this loop with `wc ≥ 1` (forced by `workerCount`); the `0 < wc` conjunct in
the guard makes the recursion well-founded and is vacuous for every
reachable call. -/
def strideGo (wc n i : Nat) : List Nat :=
  if h : 0 < wc ∧ i < n then i :: strideGo wc n (i + wc) else []
termination_by n - i
decreasing_by omega

/-- Observable outcome of one ProcessBatch call: the returned error, the
number of worker goroutines spawned, and the per-item execution outcomes. -/
structure BatchOut where
  err : Option String
  workersSpawned : Nat
  outs : List ProcOut
deriving DecidableEq, Repr

/-- ProcessBatch (default.go lines 112-187).  `fetch` is the repository
GetPending result: either an error or the fetched items, each paired with
the collaborator outcomes its processMessage execution will observe.  A
fetch error is wrapped and returned, with no workers spawned.  Zero items
returns nil immediately, with no workers spawned.  Otherwise `workerCount`
workers are spawned; by the stride-partition coverage (see
`stride_partition_correct`) every index is processed by exactly one worker,
each per-item error is logged and dropped (lines 171-174), the workers are
joined, and nil is returned.  Per-item outcomes are listed in index order;
no cross-worker completion order is modelled, and the deadline is taken as
unexpired (`ctx.Err() = nil`) throughout, as in every scenario the claims
quantify over. -/
def ProcessBatch (fetch : Except String (List (Msg × ItemEnv)))
    (maxWorkers : Int) : BatchOut :=
  match fetch with
  | .error e =>
      { err := some ("failed to fetch pending messages: " ++ e)
        workersSpawned := 0
        outs := [] }
  | .ok [] =>
      { err := none, workersSpawned := 0, outs := [] }
  | .ok items =>
      { err := none
        workersSpawned := (workerCount maxWorkers items.length).toNat
        outs := items.map (fun p => processMessage p.1 p.2) }

/-! ### Configuration defaults (config.go; scheduler.go lines 64-88;
default.go lines 76-103)

A duration- or int-valued environment variable is either unset (or blank),
set to a value that fails to parse, or set to a value that parses.  Durations
are nanosecond counts (`Int`), as Go `time.Duration`. -/

/-- State of one environment variable as consumed by getInt / getDuration:
unset or blank, set but unparsable, or parsed to a value. -/
inductive EnvVal (α : Type)
  | unset
  | unparsable
  | val (x : α)
deriving DecidableEq, Repr

/-- getDuration (config.go lines 126-136): the default when the variable is
unset/blank or time.ParseDuration fails, otherwise the parsed duration. -/
def getDuration (e : EnvVal Int) (dft : Int) : Int :=
  match e with
  | .unset => dft
  | .unparsable => dft
  | .val d => d

/-- getInt (config.go lines 114-124): the default when the variable is
unset/blank or strconv.Atoi fails, otherwise the parsed int. -/
def getInt (e : EnvVal Int) (dft : Int) : Int :=
  match e with
  | .unset => dft
  | .unparsable => dft
  | .val n => n

/-- Nanoseconds in one second (Go `time.Second`). -/
def nsPerSecond : Int := 1000000000

/-- Nanoseconds in one minute (Go `time.Minute`). -/
def nsPerMinute : Int := 60 * 1000000000

/-- DefaultInterval (scheduler.go line 27): 2 minutes. -/
def DefaultInterval : Int := 2 * nsPerMinute

/-- DefaultBatchTimeout (scheduler.go line 31): 30 seconds. -/
def DefaultBatchTimeout : Int := 30 * nsPerSecond

/-- Interval actually used by NewSchedulerService (scheduler.go lines
69-71): DefaultInterval when the provided interval is non-positive. -/
def schedulerIntervalUsed (interval : Int) : Int :=
  if interval ≤ 0 then DefaultInterval else interval

/-- Batch timeout actually used by NewSchedulerService (scheduler.go lines
72-74): DefaultBatchTimeout when the provided timeout is non-positive. -/
def schedulerBatchTimeoutUsed (batchTimeout : Int) : Int :=
  if batchTimeout ≤ 0 then DefaultBatchTimeout else batchTimeout

/-- Batch size actually used by NewMessageService (default.go lines 85-87):
100 when the provided value is non-positive. -/
def messageBatchSizeUsed (batchSize : Int) : Int :=
  if batchSize ≤ 0 then 100 else batchSize

/-- Max workers actually used by NewMessageService (default.go lines 88-90):
4 when the provided value is non-positive. -/
def messageMaxWorkersUsed (maxWorkers : Int) : Int :=
  if maxWorkers ≤ 0 then 4 else maxWorkers

/-- Per-message timeout actually used by NewMessageService (default.go lines
91-93): 5 seconds when the provided value is non-positive. -/
def messagePerMessageTimeoutUsed (t : Int) : Int :=
  if t ≤ 0 then 5 * nsPerSecond else t

/-- Effective tick interval of the composed system (config.New line 86
feeding NewSchedulerService via main): getDuration with config default
5 seconds, then the constructor clamp. -/
def effectiveInterval (e : EnvVal Int) : Int :=
  schedulerIntervalUsed (getDuration e (5 * nsPerSecond))

/-- Effective batch deadline of the composed system (config.New line 87
feeding NewSchedulerService): config default 30 seconds, then the
constructor clamp. -/
def effectiveBatchTimeout (e : EnvVal Int) : Int :=
  schedulerBatchTimeoutUsed (getDuration e (30 * nsPerSecond))

/-- Effective batch size of the composed system (config.New line 90 feeding
NewMessageService): config default 100, then the constructor clamp. -/
def effectiveBatchSize (e : EnvVal Int) : Int :=
  messageBatchSizeUsed (getInt e 100)

/-- Effective max workers of the composed system (config.New line 91 feeding
NewMessageService): config default 4, then the constructor clamp. -/
def effectiveMaxWorkers (e : EnvVal Int) : Int :=
  messageMaxWorkersUsed (getInt e 4)

/-- Effective per-item timeout of the composed system (config.New line 92
feeding NewMessageService): config default 5 seconds, then the constructor
clamp. -/
def effectivePerMessageTimeout (e : EnvVal Int) : Int :=
  messagePerMessageTimeoutUsed (getDuration e (5 * nsPerSecond))

/-! ## Theorems -/

/-! ### Stride worker pool (claim C3) -/

/-- Membership in a worker's stride: the indices visited by the loop
starting at `s` with step `wc` are exactly those `x` in `[s, n)` congruent
to `s` modulo `wc`. -/
theorem strideGo_mem (wc n : Nat) (hwc : 0 < wc) (s x : Nat) :
    x ∈ strideGo wc n s ↔ s ≤ x ∧ x < n ∧ (x - s) % wc = 0 := by
  rw [strideGo]
  by_cases h : s < n
  · rw [dif_pos ⟨hwc, h⟩]
    have ih := strideGo_mem wc n hwc (s + wc) x
    simp only [List.mem_cons, ih]
    constructor
    · rintro (rfl | ⟨h1, h2, h3⟩)
      · exact ⟨Nat.le_refl _, h, by simp⟩
      · refine ⟨by omega, h2, ?_⟩
        have hx : x - s = (x - (s + wc)) + wc := by omega
        rw [hx, Nat.add_mod_right, h3]
    · rintro ⟨h1, h2, h3⟩
      rcases Nat.eq_or_lt_of_le h1 with rfl | hlt
      · exact Or.inl rfl
      · right
        have hdvd : wc ∣ x - s := Nat.dvd_of_mod_eq_zero h3
        have hge : wc ≤ x - s := Nat.le_of_dvd (by omega) hdvd
        refine ⟨by omega, h2, ?_⟩
        have hx : x - (s + wc) = (x - s) - wc := by omega
        have hx2 : x - s = ((x - s) - wc) + wc := by omega
        have := h3
        rw [hx2, Nat.add_mod_right] at this
        rw [hx]
        exact this
  · rw [dif_neg (by omega)]
    simp only [List.not_mem_nil, false_iff]
    omega
termination_by n - s
decreasing_by omega

/-- Length of a worker's stride: the loop starting at `s` with step `wc`
visits exactly the ceiling of `(n - s) / wc` indices. -/
theorem strideGo_length (wc n : Nat) (hwc : 0 < wc) (s : Nat) :
    (strideGo wc n s).length = (n - s + wc - 1) / wc := by
  rw [strideGo]
  by_cases h : s < n
  · rw [dif_pos ⟨hwc, h⟩]
    have ih := strideGo_length wc n hwc (s + wc)
    simp only [List.length_cons, ih]
    by_cases h2 : n ≤ s + wc
    · have e1 : n - (s + wc) = 0 := by omega
      have e2 : n - s + wc - 1 = (n - s - 1) + wc := by omega
      rw [e1, e2, Nat.add_div_right _ hwc]
      have : (0 + wc - 1) / wc = 0 := Nat.div_eq_of_lt (by omega)
      have h3 : (n - s - 1) / wc = 0 := Nat.div_eq_of_lt (by omega)
      omega
    · have e1 : n - (s + wc) + wc - 1 = n - s - 1 := by omega
      have e2 : n - s + wc - 1 = (n - s - 1) + wc := by omega
      rw [e1, e2, Nat.add_div_right _ hwc]
  · rw [dif_neg (by omega)]
    have e1 : n - s = 0 := by omega
    simp only [List.length_nil, e1]
    exact (Nat.div_eq_of_lt (by omega)).symm
termination_by n - s
decreasing_by omega

/-- Worker-count computation closed form: `workerCount` clamps the item
count by `maxWorkers` from above and by 1 from below. -/
theorem workerCount_eq (maxWorkers : Int) (n : Nat) :
    workerCount maxWorkers n = max 1 (min maxWorkers n) := by
  simp only [workerCount]
  split <;> split <;> omega

/-- C3: for every batch of N > 0 fetched items, workerCount equals
max(1, min(maxWorkers, N)); for wc the resulting worker count, the stride
assignment gives worker k exactly the indices congruent to k modulo wc below
N, every index below N belongs to exactly one worker (totality and
disjointness), and each worker's share is at most the ceiling of N / wc. -/
theorem stride_partition_correct (maxWorkers : Int) (n : Nat) (hn : 0 < n) :
    workerCount maxWorkers n = max 1 (min maxWorkers n) ∧
    ∀ wc : Nat, (wc : Int) = workerCount maxWorkers n →
      (0 < wc ∧
       (∀ i, i < n → ∃! k, k < wc ∧ i ∈ strideGo wc n k) ∧
       (∀ k, k < wc → (strideGo wc n k).length ≤ (n + wc - 1) / wc)) := by
  refine ⟨workerCount_eq maxWorkers n, ?_⟩
  intro wc hwc
  have hq := workerCount_eq maxWorkers n
  have hpos : 0 < wc := by
    rw [hq] at hwc
    omega
  refine ⟨hpos, ?_, ?_⟩
  · intro i hi
    refine ⟨i % wc, ⟨Nat.mod_lt _ hpos, ?_⟩, ?_⟩
    · rw [strideGo_mem wc n hpos]
      refine ⟨Nat.mod_le _ _, hi, ?_⟩
      conv_lhs => rw [show i - i % wc = wc * (i / wc) by
        have := Nat.mod_add_div i wc
        omega]
      exact Nat.mul_mod_right wc _
    · rintro k ⟨hk, hmem⟩
      rw [strideGo_mem wc n hpos] at hmem
      obtain ⟨h1, h2, h3⟩ := hmem
      have hdvd : wc ∣ i - k := Nat.dvd_of_mod_eq_zero h3
      obtain ⟨q, hqn⟩ := hdvd
      have : i = k + wc * q := by omega
      subst this
      rw [Nat.add_mul_mod_self_left]
      exact (Nat.mod_eq_of_lt hk).symm
  · intro k hk
    rw [strideGo_length wc n hpos k]
    have : n - k ≤ n := Nat.sub_le _ _
    exact Nat.div_le_div_right (by omega)

/-- Witness for C3 at maxWorkers = 4 and a batch of 10 items. -/
theorem stride_partition_correct_witness :
    (0 < 10) ∧
    (workerCount 4 10 = max 1 (min 4 10) ∧
     ∀ wc : Nat, (wc : Int) = workerCount 4 10 →
       (0 < wc ∧
        (∀ i, i < 10 → ∃! k, k < wc ∧ i ∈ strideGo wc 10 k) ∧
        (∀ k, k < wc → (strideGo wc 10 k).length ≤ (10 + wc - 1) / wc))) :=
  ⟨by decide, stride_partition_correct 4 10 (by decide)⟩

/-! ### Control-loop invariant (claims C8, C9, C1, C2)

The loop services commands only while blocked at its select, and the tick
arm runs ProcessBatch synchronously before returning there, so at every
select `inBatch` is false — which makes the deferred-ack branch of the
opStop arm (scheduler.go lines 190-192) unreachable and keeps the held-ack
slot empty in every reachable state. -/

/-- Invariant of every reachable loop state: `inBatch` is false at the
select and true inside the tick arm, the held stop-ack slot is empty, and
the number of in-flight ProcessBatch invocations is 1 inside the tick arm
and 0 otherwise. -/
theorem runLoop_inv (es : List LoopEvent) :
    ((runLoop es).phase = .atSelect → (runLoop es).inBatch = false) ∧
    ((runLoop es).phase = .inTickArm → (runLoop es).inBatch = true) ∧
    (runLoop es).pendingStop = none ∧
    (runLoop es).activeBatches
      = (if (runLoop es).phase = .inTickArm then 1 else 0) := by
  induction es using List.reverseRecOn with
  | nil => simp [runLoop, initLoop]
  | append_singleton es e ih =>
      obtain ⟨h1, h2, h3, h4⟩ := ih
      have hstep : runLoop (es ++ [e]) = loopStep (runLoop es) e := by
        rw [runLoop, List.foldl_append, ← runLoop]
        rfl
      rw [hstep]
      rcases hs : runLoop es with ⟨r, ib, ps, ph, ab⟩
      rw [hs] at h1 h2 h3 h4
      simp only at h1 h2 h3 h4
      subst h3
      cases e <;> cases ph <;>
        simp_all [loopStep] <;>
        split_ifs <;> simp_all <;> omega

/-- C8: in every reachable state of the control loop, the held stop-ack
slot (`pendingStop`) is non-empty only while `inBatch` is true, and at most
one outstanding stop-ack is held at any time.  The invariant holds in the
strongest possible form: the slot is empty in every reachable state, because
commands are only serviced at the select, where no batch is mid-flight, so
the deferring branch of the opStop arm never executes. -/
theorem pendingStopAck_invariant (es : List LoopEvent) :
    ((runLoop es).pendingStop.isSome = true → (runLoop es).inBatch = true) ∧
    (runLoop es).pendingStop.toList.length ≤ 1 ∧
    (runLoop es).pendingStop = none := by
  have h := (runLoop_inv es).2.2.1
  refine ⟨?_, ?_, h⟩ <;> simp [h]

/-- Witness for C8 on the event sequence Start, tick, Stop. -/
theorem pendingStopAck_invariant_witness :
    ((runLoop [LoopEvent.cmdStart, LoopEvent.tick,
               LoopEvent.cmdStop 7]).pendingStop.isSome = true →
      (runLoop [LoopEvent.cmdStart, LoopEvent.tick,
                LoopEvent.cmdStop 7]).inBatch = true) ∧
    (runLoop [LoopEvent.cmdStart, LoopEvent.tick,
              LoopEvent.cmdStop 7]).pendingStop.toList.length ≤ 1 ∧
    (runLoop [LoopEvent.cmdStart, LoopEvent.tick,
              LoopEvent.cmdStop 7]).pendingStop = none :=
  pendingStopAck_invariant [LoopEvent.cmdStart, LoopEvent.tick,
                            LoopEvent.cmdStop 7]

/-- C9: a tick delivered while the scheduler is not running, or while a
batch is already executing, leaves the loop state unchanged — it is dropped,
never queued — and in every reachable state at most one ProcessBatch
invocation is in flight. -/
theorem tick_dropped_no_concurrent_batch (es : List LoopEvent) :
    ((runLoop es).running = false ∨ (runLoop es).inBatch = true →
      loopStep (runLoop es) LoopEvent.tick = runLoop es) ∧
    (runLoop es).activeBatches ≤ 1 := by
  obtain ⟨h1, h2, h3, h4⟩ := runLoop_inv es
  constructor
  · intro hdrop
    rcases hs : runLoop es with ⟨r, ib, ps, ph, ab⟩
    rw [hs] at hdrop
    simp only at hdrop
    cases ph
    · simp only [loopStep]
      rcases hdrop with rfl | rfl
      · simp
      · simp
    · simp only [loopStep]
  · rw [h4]
    split <;> omega

/-- Witness for C9 in the mid-batch state reached by Start then tick. -/
theorem tick_dropped_no_concurrent_batch_witness :
    (runLoop [LoopEvent.cmdStart, LoopEvent.tick]).inBatch = true ∧
    loopStep (runLoop [LoopEvent.cmdStart, LoopEvent.tick]) LoopEvent.tick
      = runLoop [LoopEvent.cmdStart, LoopEvent.tick] ∧
    (runLoop [LoopEvent.cmdStart, LoopEvent.tick]).activeBatches ≤ 1 :=
  ⟨by decide,
   (tick_dropped_no_concurrent_batch [LoopEvent.cmdStart, LoopEvent.tick]).1
     (Or.inr (by decide)),
   (tick_dropped_no_concurrent_batch [LoopEvent.cmdStart, LoopEvent.tick]).2⟩

/-! ### Stop and IsRunning timing (claims C1, C2) -/

/-- C1 counterexample: Stop invoked at time 0 while a batch runs until the
3-second mark returns ControlUnresponsive at the 2-second controlTimeout —
before that batch's ProcessBatch invocation has returned — refuting the
claim for batch durations beyond the control timeout. -/
theorem stop_mid_batch_counterexample :
    StopReturn 0 (3 * 1000000000)
      = ControlReturn.unresponsive (2 * 1000000000) ∧
    (StopReturn 0 (3 * 1000000000)).time < 3 * 1000000000 := by
  constructor <;> decide

/-- C1 (amended): if Stop is invoked at `t0` while a batch executes and that
batch's ProcessBatch returns at `free`, then when `free` is within the
control timeout of the call Stop returns successfully exactly at `free` —
not before ProcessBatch has returned — and when the batch overruns the
control timeout Stop returns ControlUnresponsive at `t0 + controlTimeout`.
The acknowledgment is never deferred through the held stop-ack slot:
servicing a Stop command leaves the slot empty in every reachable loop
state, the ack being sent immediately once the loop is back at its select. -/
theorem stop_mid_batch_behavior (t0 free : Nat) (h : t0 ≤ free) :
    (free < t0 + controlTimeout →
      StopReturn t0 free = ControlReturn.ok free) ∧
    (t0 + controlTimeout ≤ free →
      StopReturn t0 free = ControlReturn.unresponsive (t0 + controlTimeout)) ∧
    (∀ es a,
      (loopStep (runLoop es) (LoopEvent.cmdStop a)).pendingStop = none) := by
  have hmax : max t0 free = free := Nat.max_eq_right h
  refine ⟨?_, ?_, ?_⟩
  · intro hlt
    have hct : (0 : Nat) < controlTimeout := by decide
    have hr : rendezvous t0 free = free := by simp [rendezvous, hmax]
    have hr2 : rendezvous free free = free := by simp [rendezvous]
    have h2 : free < free + controlTimeout := by omega
    simp [StopReturn, sendWithTimeout, hr, hr2, hlt, h2]
  · intro hge
    have hnlt : ¬ max t0 free < t0 + controlTimeout := by omega
    simp only [StopReturn, sendWithTimeout, rendezvous, if_neg hnlt]
  · intro es a
    obtain ⟨h1, _, h3, _⟩ := runLoop_inv es
    rcases hs : runLoop es with ⟨r, ib, ps, ph, ab⟩
    rw [hs] at h1 h3
    simp only at h1 h3
    subst h3
    cases ph
    · have hib : ib = false := h1 rfl
      subst hib
      cases r <;> simp [loopStep]
    · simp [loopStep]

/-- Witness for C1 with Stop invoked at time 0 during a 1-second batch. -/
theorem stop_mid_batch_behavior_witness :
    ((0 : Nat) ≤ 1000000000) ∧
    ((1000000000 < 0 + controlTimeout →
       StopReturn 0 1000000000 = ControlReturn.ok 1000000000) ∧
     (0 + controlTimeout ≤ 1000000000 →
       StopReturn 0 1000000000
         = ControlReturn.unresponsive (0 + controlTimeout)) ∧
     (∀ es a,
       (loopStep (runLoop es) (LoopEvent.cmdStop a)).pendingStop = none)) :=
  ⟨by decide, stop_mid_batch_behavior 0 1000000000 (by decide)⟩

/-- C2 counterexample: with the loop stuck in a batch until the 3-second
mark, an IsRunning call at time 0 returns only at 3 seconds — beyond the
2-second control timeout — refuting the bounded round-trip claim. -/
theorem isRunning_counterexample :
    IsRunningReturn 0 (3 * 1000000000) = 3 * 1000000000 ∧
    0 + controlTimeout < IsRunningReturn 0 (3 * 1000000000) := by
  constructor <;> decide

/-- C2 (amended): IsRunning performs a bare unbuffered send and receive with
no select and no timer, so it blocks until the owning loop is next at its
select: with the loop busy until `free ≥ t0` it returns exactly at `free`,
no constant bounds its delay, and only when the loop is already waiting does
it return immediately. -/
theorem isRunning_blocks_until_loop_free (t0 free : Nat) (h : t0 ≤ free) :
    IsRunningReturn t0 free = free ∧
    (∀ B : Nat, B < IsRunningReturn 0 (B + 1)) ∧
    (∀ u v : Nat, v ≤ u → IsRunningReturn u v = u) := by
  refine ⟨Nat.max_eq_right h, ?_, ?_⟩
  · intro B
    simp [IsRunningReturn, rendezvous]
  · intro u v huv
    exact Nat.max_eq_left huv

/-- Witness for C2 with the call at time 0 and the loop busy until 5. -/
theorem isRunning_blocks_until_loop_free_witness :
    ((0 : Nat) ≤ 5) ∧
    (IsRunningReturn 0 5 = 5 ∧
     (∀ B : Nat, B < IsRunningReturn 0 (B + 1)) ∧
     (∀ u v : Nat, v ≤ u → IsRunningReturn u v = u)) :=
  ⟨by decide, isRunning_blocks_until_loop_free 0 5 (by decide)⟩

/-! ### ProcessBatch error contract (claim C4) -/

/-- C4: ProcessBatch returns an error exactly when the initial fetch fails;
a fetch of zero items returns nil immediately with no workers spawned, and
whatever the per-item transport, persistence and cache outcomes are, a
successful fetch always yields a nil batch error once all workers have
joined. -/
theorem processBatch_error_contract
    (fetch : Except String (List (Msg × ItemEnv))) (maxWorkers : Int) :
    ((ProcessBatch fetch maxWorkers).err.isSome = true ↔
      ∃ e, fetch = Except.error e) ∧
    (fetch = Except.ok [] →
      ProcessBatch fetch maxWorkers
        = { err := none, workersSpawned := 0, outs := [] }) ∧
    (∀ items, fetch = Except.ok items →
      (ProcessBatch fetch maxWorkers).err = none) := by
  rcases fetch with e | items
  · refine ⟨?_, ?_, ?_⟩
    · simp [ProcessBatch]
    · intro hcontra
      cases hcontra
    · intro items hcontra
      cases hcontra
  · rcases items with _ | ⟨m, rest⟩
    · refine ⟨?_, ?_, ?_⟩
      · simp [ProcessBatch]
      · intro _
        rfl
      · intro items hitems
        simp [ProcessBatch]
    · refine ⟨?_, ?_, ?_⟩
      · simp [ProcessBatch]
      · intro hcontra
        cases hcontra
      · intro items hitems
        simp [ProcessBatch]

/-- Witness for C4 at the empty fetch with maxWorkers 4. -/
theorem processBatch_error_contract_witness :
    ((ProcessBatch (Except.ok []) 4).err.isSome = true ↔
      ∃ e, (Except.ok [] : Except String (List (Msg × ItemEnv)))
        = Except.error e) ∧
    ((Except.ok [] : Except String (List (Msg × ItemEnv))) = Except.ok [] →
      ProcessBatch (Except.ok []) 4
        = { err := none, workersSpawned := 0, outs := [] }) ∧
    (∀ items,
      (Except.ok [] : Except String (List (Msg × ItemEnv)))
        = Except.ok items →
      (ProcessBatch (Except.ok []) 4).err = none) :=
  processBatch_error_contract (Except.ok []) 4

/-! ### Per-item success path (claims C5, C10) -/

/-- C5: for every item whose transport Send succeeds, the item is marked
Success with the transport's external identifier and raw response and the
marked item is handed to Repository.UpdateStatus; when that persist
succeeds, the cache dependency is present and the external identifier is
non-empty, exactly one cache record is written, keyed
`sent_messages:<externalId>` with a 24-hour expiry; and the cache outcome is
never propagated: the execution's entire observable result is independent of
the cache error, and with the status persisted the function returns nil. -/
theorem transport_success_marks_and_caches (m : Msg) (env : ItemEnv)
    (hok : env.send.err = none) :
    (processMessage m env).final.status = Status.success ∧
    (processMessage m env).final.messageID = env.send.externalID ∧
    (processMessage m env).final.rawResponse = env.send.rawResp ∧
    (processMessage m env).updates = [(processMessage m env).final] ∧
    (env.updateErr = none → (processMessage m env).ret = none) ∧
    (env.updateErr = none → env.cacheNil = false →
      env.send.externalID ≠ "" →
      (processMessage m env).cacheWrites
        = [(prefixKey SentMessages env.send.externalID, 24 * hourNs)]) ∧
    (∀ ce, processMessage m { env with cacheErr := ce }
      = processMessage m env) := by
  rcases env with ⟨⟨xid, raw, serr⟩, uerr, cnil, cerr⟩
  simp only at hok
  subst hok
  rcases uerr with _ | ue
  · by_cases hc : cnil = false ∧ xid ≠ ""
    · simp [processMessage, MarkSent, hc]
    · simp [processMessage, MarkSent, hc]
      tauto
  · simp [processMessage, MarkSent]

/-- Witness for C5 on a concrete pending message and a fully successful
environment. -/
theorem transport_success_marks_and_caches_witness :
    (ItemEnv.mk ⟨"x1", "resp", none⟩ none false none).send.err = none ∧
    ((processMessage
        ⟨"m1", "r", "c", Status.pending, "", "", false⟩
        ⟨⟨"x1", "resp", none⟩, none, false, none⟩).final.status
      = Status.success ∧
     (processMessage ⟨"m1", "r", "c", Status.pending, "", "", false⟩
        ⟨⟨"x1", "resp", none⟩, none, false, none⟩).final.messageID = "x1" ∧
     (processMessage ⟨"m1", "r", "c", Status.pending, "", "", false⟩
        ⟨⟨"x1", "resp", none⟩, none, false, none⟩).final.rawResponse
      = "resp" ∧
     (processMessage ⟨"m1", "r", "c", Status.pending, "", "", false⟩
        ⟨⟨"x1", "resp", none⟩, none, false, none⟩).updates
      = [(processMessage ⟨"m1", "r", "c", Status.pending, "", "", false⟩
            ⟨⟨"x1", "resp", none⟩, none, false, none⟩).final] ∧
     ((none : Option String) = none →
       (processMessage ⟨"m1", "r", "c", Status.pending, "", "", false⟩
          ⟨⟨"x1", "resp", none⟩, none, false, none⟩).ret = none) ∧
     ((none : Option String) = none → (false = false) → "x1" ≠ "" →
       (processMessage ⟨"m1", "r", "c", Status.pending, "", "", false⟩
          ⟨⟨"x1", "resp", none⟩, none, false, none⟩).cacheWrites
        = [(prefixKey SentMessages "x1", 24 * hourNs)]) ∧
     (∀ ce, processMessage ⟨"m1", "r", "c", Status.pending, "", "", false⟩
         { (⟨⟨"x1", "resp", none⟩, none, false, none⟩ : ItemEnv) with
             cacheErr := ce }
       = processMessage ⟨"m1", "r", "c", Status.pending, "", "", false⟩
           ⟨⟨"x1", "resp", none⟩, none, false, none⟩)) :=
  ⟨rfl, transport_success_marks_and_caches
    ⟨"m1", "r", "c", Status.pending, "", "", false⟩
    ⟨⟨"x1", "resp", none⟩, none, false, none⟩ rfl⟩

/-- C10: on the transport-success path, a failed Success-status persist
makes processMessage return an error with no cache record written; the cache
write is likewise skipped when the cache dependency is nil or the external
identifier is empty; so a cache entry exists only when the Success status
was persisted and the identifier was non-empty with the cache present. -/
theorem success_persist_gates_cache (m : Msg) (env : ItemEnv)
    (hok : env.send.err = none) :
    (env.updateErr.isSome = true →
      (processMessage m env).ret.isSome = true ∧
      (processMessage m env).cacheWrites = []) ∧
    (env.cacheNil = true → (processMessage m env).cacheWrites = []) ∧
    (env.send.externalID = "" → (processMessage m env).cacheWrites = []) ∧
    ((processMessage m env).cacheWrites ≠ [] →
      env.updateErr = none ∧ env.cacheNil = false ∧
      env.send.externalID ≠ "") := by
  rcases env with ⟨⟨xid, raw, serr⟩, uerr, cnil, cerr⟩
  simp only at hok
  subst hok
  rcases uerr with _ | ue
  · by_cases hc : cnil = false ∧ xid ≠ ""
    · obtain ⟨hc1, hc2⟩ := hc
      subst hc1
      simp [processMessage, MarkSent, hc2]
    · simp [processMessage, MarkSent, if_neg hc]
  · simp [processMessage, MarkSent]

/-- Witness for C10 with a failing Success-status persist. -/
theorem success_persist_gates_cache_witness :
    (ItemEnv.mk ⟨"x1", "resp", none⟩ (some "db down") false none).send.err
      = none ∧
    (((some "db down" : Option String).isSome = true →
       (processMessage ⟨"m1", "r", "c", Status.pending, "", "", false⟩
          ⟨⟨"x1", "resp", none⟩, some "db down", false, none⟩).ret.isSome
         = true ∧
       (processMessage ⟨"m1", "r", "c", Status.pending, "", "", false⟩
          ⟨⟨"x1", "resp", none⟩, some "db down", false, none⟩).cacheWrites
         = []) ∧
     (false = true →
       (processMessage ⟨"m1", "r", "c", Status.pending, "", "", false⟩
          ⟨⟨"x1", "resp", none⟩, some "db down", false, none⟩).cacheWrites
         = []) ∧
     ("x1" = "" →
       (processMessage ⟨"m1", "r", "c", Status.pending, "", "", false⟩
          ⟨⟨"x1", "resp", none⟩, some "db down", false, none⟩).cacheWrites
         = []) ∧
     ((processMessage ⟨"m1", "r", "c", Status.pending, "", "", false⟩
         ⟨⟨"x1", "resp", none⟩, some "db down", false, none⟩).cacheWrites
        ≠ [] →
       (some "db down" : Option String) = none ∧ false = false ∧
       "x1" ≠ "")) :=
  ⟨rfl, success_persist_gates_cache
    ⟨"m1", "r", "c", Status.pending, "", "", false⟩
    ⟨⟨"x1", "resp", none⟩, some "db down", false, none⟩ rfl⟩

/-! ### All-transport-failure batch (claim C6) -/

/-- C6: if the transport fails for every item of a batch, ProcessBatch
returns no error, the per-item outcomes are exactly one processMessage
execution per fetched item, and every such execution leaves its item Failed
with the transport's raw response stored and hands the Failed item to
Repository.UpdateStatus best-effort — whatever the persist outcome, the
batch error stays nil. -/
theorem transport_all_fail_batch (maxWorkers : Int)
    (items : List (Msg × ItemEnv))
    (hall : ∀ p ∈ items, p.2.send.err.isSome = true) :
    (ProcessBatch (Except.ok items) maxWorkers).err = none ∧
    (ProcessBatch (Except.ok items) maxWorkers).outs
      = items.map (fun p => processMessage p.1 p.2) ∧
    (∀ p ∈ items,
      (processMessage p.1 p.2).final.status = Status.failed ∧
      (processMessage p.1 p.2).final.rawResponse = p.2.send.rawResp ∧
      (processMessage p.1 p.2).updates = [(processMessage p.1 p.2).final] ∧
      (processMessage p.1 p.2).cacheWrites = []) := by
  refine ⟨?_, ?_, ?_⟩
  · rcases items with _ | ⟨m, rest⟩ <;> simp [ProcessBatch]
  · rcases items with _ | ⟨m, rest⟩ <;> simp [ProcessBatch]
  · intro p hp
    have hsome := hall p hp
    rcases hserr : p.2.send.err with _ | e
    · rw [hserr] at hsome
      simp at hsome
    · rcases p with ⟨m, ⟨⟨xid, raw, serr⟩, uerr, cnil, cerr⟩⟩
      simp only at hserr
      subst hserr
      simp [processMessage, MarkFailed]

/-- Witness for C6 on a one-item batch whose send fails. -/
theorem transport_all_fail_batch_witness :
    (∀ p ∈ [((⟨"m1", "r", "c", Status.pending, "", "", false⟩ : Msg),
             (⟨⟨"", "boom", some "timeout"⟩, none, false, none⟩ : ItemEnv))],
       p.2.send.err.isSome = true) ∧
    ((ProcessBatch (Except.ok
        [(⟨"m1", "r", "c", Status.pending, "", "", false⟩,
          ⟨⟨"", "boom", some "timeout"⟩, none, false, none⟩)]) 4).err
      = none ∧
     (ProcessBatch (Except.ok
        [(⟨"m1", "r", "c", Status.pending, "", "", false⟩,
          ⟨⟨"", "boom", some "timeout"⟩, none, false, none⟩)]) 4).outs
      = [(⟨"m1", "r", "c", Status.pending, "", "", false⟩,
          (⟨⟨"", "boom", some "timeout"⟩, none, false, none⟩ : ItemEnv))].map
          (fun p => processMessage p.1 p.2) ∧
     (∀ p ∈ [((⟨"m1", "r", "c", Status.pending, "", "", false⟩ : Msg),
              (⟨⟨"", "boom", some "timeout"⟩, none, false, none⟩ : ItemEnv))],
       (processMessage p.1 p.2).final.status = Status.failed ∧
       (processMessage p.1 p.2).final.rawResponse = p.2.send.rawResp ∧
       (processMessage p.1 p.2).updates = [(processMessage p.1 p.2).final] ∧
       (processMessage p.1 p.2).cacheWrites = [])) :=
  ⟨by decide, transport_all_fail_batch 4
    [(⟨"m1", "r", "c", Status.pending, "", "", false⟩,
      ⟨⟨"", "boom", some "timeout"⟩, none, false, none⟩)] (by decide)⟩

/-! ### Configuration defaults (claim C7) -/

/-- C7 counterexample: with the tick-interval variable unset, the composed
system runs with a 5-second interval — the config-layer default — not the
2-minute DefaultInterval the claim states. -/
theorem config_interval_counterexample :
    effectiveInterval EnvVal.unset = 5 * nsPerSecond ∧
    effectiveInterval EnvVal.unset ≠ DefaultInterval := by
  constructor <;> decide

/-- C7 (amended): when the tick-interval variable is unset or unparsable the
config layer supplies 5 seconds, which the scheduler keeps; the 2-minute
DefaultInterval applies only when the configured interval is non-positive
(and a positive configured interval is kept).  The remaining defaults are as
claimed under unset, unparsable and non-positive configured values alike:
batch deadline 30 seconds, batch size 100, max workers 4, per-item timeout
5 seconds. -/
theorem config_defaults_amended :
    effectiveInterval EnvVal.unset = 5 * nsPerSecond ∧
    effectiveInterval EnvVal.unparsable = 5 * nsPerSecond ∧
    (∀ d : Int, d ≤ 0 → effectiveInterval (EnvVal.val d) = DefaultInterval) ∧
    (∀ d : Int, 0 < d → effectiveInterval (EnvVal.val d) = d) ∧
    effectiveBatchTimeout EnvVal.unset = 30 * nsPerSecond ∧
    effectiveBatchTimeout EnvVal.unparsable = 30 * nsPerSecond ∧
    (∀ d : Int, d ≤ 0 →
      effectiveBatchTimeout (EnvVal.val d) = 30 * nsPerSecond) ∧
    effectiveBatchSize EnvVal.unset = 100 ∧
    effectiveBatchSize EnvVal.unparsable = 100 ∧
    (∀ v : Int, v ≤ 0 → effectiveBatchSize (EnvVal.val v) = 100) ∧
    effectiveMaxWorkers EnvVal.unset = 4 ∧
    effectiveMaxWorkers EnvVal.unparsable = 4 ∧
    (∀ v : Int, v ≤ 0 → effectiveMaxWorkers (EnvVal.val v) = 4) ∧
    effectivePerMessageTimeout EnvVal.unset = 5 * nsPerSecond ∧
    effectivePerMessageTimeout EnvVal.unparsable = 5 * nsPerSecond ∧
    (∀ v : Int, v ≤ 0 →
      effectivePerMessageTimeout (EnvVal.val v) = 5 * nsPerSecond) := by
  refine ⟨by decide, by decide, ?_, ?_, by decide, by decide, ?_,
          by decide, by decide, ?_, by decide, by decide, ?_,
          by decide, by decide, ?_⟩
  · intro d hd
    simp [effectiveInterval, getDuration, schedulerIntervalUsed, hd]
  · intro d hd
    have : ¬ d ≤ 0 := by omega
    simp [effectiveInterval, getDuration, schedulerIntervalUsed, this]
  · intro d hd
    simp [effectiveBatchTimeout, getDuration, schedulerBatchTimeoutUsed, hd,
      DefaultBatchTimeout]
  · intro v hv
    simp [effectiveBatchSize, getInt, messageBatchSizeUsed, hv]
  · intro v hv
    simp [effectiveMaxWorkers, getInt, messageMaxWorkersUsed, hv]
  · intro v hv
    simp [effectivePerMessageTimeout, getDuration,
      messagePerMessageTimeoutUsed, hv]

/-- Witness for C7 instantiating the quantified clamps at -1. -/
theorem config_defaults_amended_witness :
    effectiveInterval (EnvVal.val (-1)) = DefaultInterval ∧
    effectiveBatchTimeout (EnvVal.val (-1)) = 30 * nsPerSecond ∧
    effectiveBatchSize (EnvVal.val (-1)) = 100 ∧
    effectiveMaxWorkers (EnvVal.val (-1)) = 4 ∧
    effectivePerMessageTimeout (EnvVal.val (-1)) = 5 * nsPerSecond :=
  ⟨config_defaults_amended.2.2.1 (-1) (by decide),
   config_defaults_amended.2.2.2.2.2.2.1 (-1) (by decide),
   config_defaults_amended.2.2.2.2.2.2.2.2.2.1 (-1) (by decide),
   config_defaults_amended.2.2.2.2.2.2.2.2.2.2.2.2.1 (-1) (by decide),
   config_defaults_amended.2.2.2.2.2.2.2.2.2.2.2.2.2.2.2 (-1) (by decide)⟩

end InsiderSpec
